import Mathlib

/-!
Verification development for the urlshortener repository.

Shallow embedding of the core components:
* `Errx` — the error taxonomy of internal/errx/errx.go,
* `GoErr` — an algebraic model of the Go `error` values that flow through
  the shortener (pgx sentinel errors, pgconn.PgError, errors.New strings,
  fmt.Errorf %w wrappers, and *errx.Error),
* the repository boundary of internal/shortener/repo_sqlc.go and
  repo_errors.go (mapRepoError, isSlugUniqueViolation, toDomainLink),
* the sluggen base62 generator, the idgen UUIDv7 generator,
* the service layer of internal/shortener/service.go,
* the SQL query semantics of db/queries/shortener.sql over a list-of-rows
  model of the links table of the soft-delete migration.

Machine randomness, the network and the database driver are modelled as
oracles passed in as function arguments.
-/

namespace Errx

/-- Model of `errx.Kind` from internal/errx/errx.go: the closed error taxonomy.
`unknown` is the zero value (`iota` starts at `Unknown`). -/
inductive Kind where
  | unknown
  | notFound
  | conflict
  | invalid
  | unauthorized
  | forbidden
  | unavailable
  | internalK
deriving DecidableEq, Repr

end Errx

open Errx

/-- A model of the Go `error` values crossing the shortener's boundaries:
`pgNoRows` is the `pgx.ErrNoRows` sentinel, `pgError` a `pgconn.PgError`
carrying its SQLSTATE code and constraint name, `errString` an
`errors.New`/plain error, `wrapped` a `fmt.Errorf` with `%w` (its `Unwrap`
returns the cause), and `errx` a `*errx.Error` (operation, kind, cause;
the cause is non-nil because `errx.E` returns nil for a nil cause). -/
inductive GoErr where
  | pgNoRows
  | pgError (code : String) (constraintName : String)
  | errString (msg : String)
  | wrapped (msg : String) (cause : GoErr)
  | errx (op : String) (kind : Errx.Kind) (cause : GoErr)
deriving DecidableEq, Repr

namespace Errx

/-- Model of `errx.E` from internal/errx/errx.go: returns nil (`none`) when the
underlying cause is nil, otherwise wraps it with the operation and kind. -/
def E (op : String) (kind : Kind) (err : Option GoErr) : Option GoErr :=
  match err with
  | none => none
  | some e => some (.errx op kind e)

/-- Model of `errx.KindOf`: `errors.As(err, &e)` walks the unwrap chain looking for
a `*errx.Error`; a bare error yields `Unknown`. -/
def KindOf : GoErr → Kind
  | .errx _ k _ => k
  | .wrapped _ c => KindOf c
  | _ => .unknown

/-- Model of `errx.OpOf`: like `KindOf` but extracts the operation label. -/
def OpOf : GoErr → String
  | .errx op _ _ => op
  | .wrapped _ c => OpOf c
  | _ => ""

end Errx

namespace Shortener

/-- Domain `Link` entity (internal/shortener/repo.go); timestamps are
modelled as natural numbers, `lastAccessedAt` is nullable. IDs are
modelled as naturals with `0` standing for `uuid.Nil`. -/
structure Link where
  id : Nat := 0
  originalURL : String := ""
  slug : String := ""
  accessCount : Int := 0
  createdAt : Nat := 0
  updatedAt : Nat := 0
  lastAccessedAt : Option Nat := none
deriving DecidableEq, Repr

/-- A row of the `links` table as returned by the sqlc querier
(`db.Link`); `created_at`/`updated_at` are `pgtype.Timestamptz` which may
in principle be NULL (`none`), `last_accessed_at` and `deleted_at` are
nullable by schema. -/
structure DbRow where
  id : Nat := 0
  originalUrl : String := ""
  slug : String := ""
  accessCount : Int := 0
  createdAt : Option Nat := none
  updatedAt : Option Nat := none
  lastAccessedAt : Option Nat := none
  deletedAt : Option Nat := none
deriving DecidableEq, Repr

/-- Parameters of the `CreateLink` query (db.CreateLinkParams). -/
structure CreateLinkParams where
  id : Nat
  originalUrl : String
  slug : String
deriving DecidableEq, Repr

/-- The name of the unique index created by migration
20251231010534_create_links_table.up.sql (soft-delete variant):
`CREATE UNIQUE INDEX links_slug_unique_active ON links (slug) WHERE deleted_at IS NULL`. -/
def linksSlugUniqueActiveIndexName : String := "links_slug_unique_active"

/-- Model of `errors.Is(err, pgx.ErrNoRows)`: walks the unwrap chain for the
no-rows sentinel. -/
def isNoRows : GoErr → Bool
  | .pgNoRows => true
  | .wrapped _ c => isNoRows c
  | .errx _ _ c => isNoRows c
  | _ => false

/-- Model of `isSlugUniqueViolation` from internal/shortener/repo_errors.go:
`errors.As` finds a `*pgconn.PgError` in the chain and checks
`Code == "23505" && ConstraintName == "links_slug_unique"`. -/
def isSlugUniqueViolation : GoErr → Bool
  | .pgError code name => code = "23505" && name = "links_slug_unique"
  | .wrapped _ c => isSlugUniqueViolation c
  | .errx _ _ c => isSlugUniqueViolation c
  | _ => false

/-- Model of `mapRepoError` from internal/shortener/repo_sqlc.go: the boundary
translator of storage errors (no-rows → NotFound, slug-unique violation →
Conflict, anything else → Unavailable). It is only ever applied to a
non-nil error, so it is total on `GoErr`. -/
def mapRepoError (op : String) (err : GoErr) : GoErr :=
  if isNoRows err then .errx op .notFound err
  else if isSlugUniqueViolation err then .errx op .conflict err
  else .errx op .unavailable err

/-- Model of `mustTime` from repo_sqlc.go: rejects NULL timestamps with a plain
(unclassified) error. -/
def mustTime (ts : Option Nat) (field : String) : Except GoErr Nat :=
  match ts with
  | none => .error (.errString (field ++ " unexpectedly NULL"))
  | some t => .ok t

/-- Model of `timePtr` from repo_sqlc.go. -/
def timePtr (ts : Option Nat) : Option Nat := ts

/-- Model of `toDomainLink` from repo_sqlc.go: converts a db row to the domain
`Link`, failing on NULL `created_at`/`updated_at`. -/
def toDomainLink (x : DbRow) : Except GoErr Link :=
  match mustTime x.createdAt "created_at" with
  | .error e => .error e
  | .ok createdAt =>
    match mustTime x.updatedAt "updated_at" with
    | .error e => .error e
    | .ok updatedAt =>
      .ok { id := x.id, originalURL := x.originalUrl, slug := x.slug,
            accessCount := x.accessCount, createdAt := createdAt,
            updatedAt := updatedAt, lastAccessedAt := timePtr x.lastAccessedAt }

end Shortener

namespace Sluggen

/-- Model of `base62Chars` from the sluggen package: the 62-character alphabet of
digits, uppercase and lowercase letters. -/
def base62Chars : String := "0123456789ABCDEFGHIJKLMNOPQRSTUVWXYZabcdefghijklmnopqrstuvwxyz"

/-- Model of `base62Generator.Generate(length)`. The entropy source `crypto/rand`
is modelled as an oracle: `.error e` is a failing `rand.Read`, `.ok bytes`
a byte stream (byte `i` of the filled buffer is `bytes i % 256`; only its
residue mod 62 matters). A non-positive length is rejected before the
oracle is consulted, so the result does not depend on it there. -/
def Generate (length : Int) (entropy : Except GoErr (Nat → Nat)) : Except GoErr String :=
  if length ≤ 0 then .error (.errString "length must be positive")
  else
    match entropy with
    | .error e => .error e
    | .ok bytes =>
      .ok (String.mk ((List.range length.toNat).map
            (fun i => base62Chars.data.getD ((bytes i) % 62) ' ')))

end Sluggen

namespace Idgen

/-- The default retry budget of `idgen.NewV7` (field `maxRetries`),
"Defaults to 1". -/
def newV7DefaultRetries : Nat := 1

/-- Model of `idgen.WithRetries(n)`: sets the retry budget only when `n >= 0`. -/
def WithRetries (n : Int) (cur : Nat) : Nat :=
  if 0 ≤ n then n.toNat else cur

/-- The error message of the exhausted-v7 branch:
`fmt.Errorf("uuid v7 generation failed after %d attempts: %w", maxRetries+1, last)`. -/
def v7FailMsg (attempts : Nat) : String :=
  "uuid v7 generation failed after " ++ toString attempts ++ " attempts"

/-- The retry loop of `v7Gen.Generate`: the `uuid.NewV7` primitive is an
oracle indexed by attempt number. `fuel` is the number of attempts still
allowed; `last` is the most recent failure. -/
def v7Go (prim : Nat → Except GoErr Nat) (msg : String) :
    Nat → Nat → GoErr → Except GoErr Nat
  | 0, _, last => .error (.wrapped msg last)
  | fuel + 1, i, _ =>
    match prim i with
    | .ok id => .ok id
    | .error e => v7Go prim msg fuel (i + 1) e

/-- Model of `v7Gen.Generate`: attempts `maxRetries + 1` calls of `uuid.NewV7`. -/
def v7Generate (maxRetries : Nat) (prim : Nat → Except GoErr Nat) : Except GoErr Nat :=
  v7Go prim (v7FailMsg (maxRetries + 1)) (maxRetries + 1) 0 (.errString "")

/-- Number of `uuid.NewV7` invocations `v7Go` makes. -/
def v7CallsGo (prim : Nat → Except GoErr Nat) : Nat → Nat → Nat
  | 0, _ => 0
  | fuel + 1, i =>
    match prim i with
    | .ok _ => 1
    | .error _ => 1 + v7CallsGo prim fuel (i + 1)

/-- Number of `uuid.NewV7` invocations `v7Generate` makes. -/
def v7Calls (maxRetries : Nat) (prim : Nat → Except GoErr Nat) : Nat :=
  v7CallsGo prim (maxRetries + 1) 0

/-- The ID-generator retry budget `NewRepository` configures by default:
`idgen.NewV7(idgen.WithRetries(1))` (repo_sqlc.go). -/
def newRepositoryDefaultIDRetries : Nat := WithRetries 1 newV7DefaultRetries

end Idgen

namespace GoNetURL

/-- Scheme and host component of a parsed URL; the only fields
`validateURL` inspects. -/
structure GoURL where
  scheme : String
  host : String
deriving DecidableEq, Repr

/-- First character of a scheme must be a letter (net/url getScheme). -/
def isSchemeFirstChar (c : Char) : Bool :=
  ('a' ≤ c && c ≤ 'z') || ('A' ≤ c && c ≤ 'Z')

/-- Subsequent scheme characters: letters, digits, `+`, `-`, `.`. -/
def isSchemeChar (c : Char) : Bool :=
  isSchemeFirstChar c || ('0' ≤ c && c ≤ '9') || c = '+' || c = '-' || c = '.'

/-- Model of net/url `getScheme`: returns `(scheme characters, rest)`;
a colon before any scheme character is the "missing protocol scheme"
error; a non-scheme character before any colon means the input has no
scheme and is all rest. `orig` is the whole input, `acc` the scheme
characters read so far (reversed). -/
def getSchemeAux (orig : List Char) : List Char → List Char → Except Unit (List Char × List Char)
  | acc, c :: rest =>
    if c = ':' then
      if acc.isEmpty then .error ()
      else .ok (acc.reverse, rest)
    else if (if acc.isEmpty then isSchemeFirstChar c else isSchemeChar c) then
      getSchemeAux orig (c :: acc) rest
    else .ok ([], orig)
  | _, [] => .ok ([], orig)

/-- Strip the userinfo of an authority: everything up to the last `@` is
userinfo (net/url parseAuthority). -/
def stripUserinfo (cs : List Char) : List Char :=
  (cs.reverse.takeWhile (fun c => c ≠ '@')).reverse

/-- Model of Go `net/url.Parse` restricted to what `validateURL`
inspects: success/failure, the (lowercased) scheme, and the host. The
modelled failure modes are a control character anywhere in the URL and a
colon before any scheme character ("missing protocol scheme"); after an
optional scheme, a `//` prefix introduces an authority running to the
first `/`, `?` or `#`, whose part after the last `@` is the host;
otherwise the host is empty. -/
def parse (r : String) : Option GoURL :=
  if r.data.any (fun c => c.toNat < 32 || c.toNat = 127) then none
  else
    match getSchemeAux r.data [] r.data with
    | .error _ => none
    | .ok (schemeChars, rest) =>
      let host : List Char :=
        match rest with
        | '/' :: '/' :: tail =>
          stripUserinfo (tail.takeWhile (fun c => c ≠ '/' && c ≠ '?' && c ≠ '#'))
        | _ => []
      some ⟨String.mk (schemeChars.map Char.toLower), String.mk host⟩

end GoNetURL

namespace Shortener

/-- Constants of internal/shortener/service.go. -/
def DefaultSlugLength : Nat := 7

/-- Maximum slug length accepted by validation. -/
def MaxSlugLength : Nat := 64

/-- Minimum slug length accepted by validation. -/
def MinSlugLength : Nat := 3

/-- Maximum URL length accepted by validation. -/
def MaxURLLength : Nat := 2048

/-- Model of `MaxRetries` of service.go: the bound of the unique-slug loop. -/
def MaxRetries : Nat := 3

/-- Model of `validateURL` from service.go: non-empty, at most 2048 characters,
parses, scheme http/https, non-empty host. Returns the error, or `none`
when valid. -/
def validateURL (rawURL : String) : Option GoErr :=
  if rawURL = "" then some (.errString "url cannot be empty")
  else if rawURL.length > MaxURLLength then
    some (.errString "url too long (max 2048 characters)")
  else
    match GoNetURL.parse rawURL with
    | none => some (.errString "invalid url format")
    | some u =>
      if u.scheme = "" then some (.errString "url must include scheme (http or https)")
      else if u.scheme ≠ "http" && u.scheme ≠ "https" then
        some (.errString "url scheme must be http or https")
      else if u.host = "" then some (.errString "url must include host")
      else none

/-- Model of `isValidSlugChar` from service.go. -/
def isValidSlugChar (c : Char) : Bool :=
  ('0' ≤ c && c ≤ '9') || ('A' ≤ c && c ≤ 'Z') || ('a' ≤ c && c ≤ 'z') ||
    c = '-' || c = '_'

/-- Model of `validateSlug` from service.go: length bounds, no leading/trailing
dash or underscore (`strings.HasPrefix`/`HasSuffix` with a one-character
affix is first/last character equality), charset. -/
def validateSlug (slug : String) : Option GoErr :=
  if slug = "" then some (.errString "slug cannot be empty")
  else if slug.length < MinSlugLength then
    some (.errString "slug too short (minimum 3 characters)")
  else if slug.length > MaxSlugLength then
    some (.errString "slug too long (maximum 64 characters)")
  else if slug.data.head? = some '-' || slug.data.head? = some '_' ||
      slug.data.getLast? = some '-' || slug.data.getLast? = some '_' then
    some (.errString "slug cannot start or end with dash or underscore")
  else if slug.data.all isValidSlugChar then none
  else some (.errString "slug contains invalid characters (only alphanumeric, dash, and underscore allowed)")

/-- Model of `validateSlugNotEmpty` from service.go. -/
def validateSlugNotEmpty (slug : String) : Option GoErr :=
  if slug = "" then some (.errString "slug cannot be empty") else none

end Shortener

namespace Shortener

/-- Model of `GetLinkBySLug` from db/queries/shortener.sql:
`SELECT ... FROM links WHERE slug = $1 AND deleted_at IS NULL`; a `:one`
query with no matching row yields `pgx.ErrNoRows`. -/
def dbGetLinkBySLug (db : List DbRow) (slug : String) : Except GoErr DbRow :=
  match db.find? (fun r => r.slug = slug && r.deletedAt.isNone) with
  | some r => .ok r
  | none => .error .pgNoRows

/-- Model of `CreateLink` from shortener.sql under the soft-delete migration: the
partial unique index `links_slug_unique_active` rejects an insert whose
slug collides with an active (non-deleted) row, raising SQLSTATE 23505
with that constraint name; otherwise the row is inserted with defaults. -/
def dbCreateLink (db : List DbRow) (p : CreateLinkParams) (now : Nat) :
    Except GoErr (DbRow × List DbRow) :=
  if db.any (fun r => r.slug = p.slug && r.deletedAt.isNone) then
    .error (.pgError "23505" linksSlugUniqueActiveIndexName)
  else
    let row : DbRow :=
      { id := p.id, originalUrl := p.originalUrl, slug := p.slug,
        accessCount := 0, createdAt := some now, updatedAt := some now }
    .ok (row, db ++ [row])

/-- Model of `SoftDeleteLink` from shortener.sql:
`UPDATE links SET deleted_at = now(), updated_at = now() WHERE slug = $1 AND deleted_at IS NULL`. -/
def softDeleteLink (db : List DbRow) (slug : String) (now : Nat) : List DbRow :=
  db.map fun r =>
    if r.slug = slug && r.deletedAt.isNone then
      { r with deletedAt := some now, updatedAt := some now }
    else r

/-- The `:exec` semantics of `SoftDeleteLink`: an UPDATE that matches zero
rows is not an error, so the call returns the updated table and no error. -/
def sqlSoftDelete (db : List DbRow) (slug : String) (now : Nat) :
    List DbRow × Option GoErr :=
  (softDeleteLink db slug now, none)

/-- Model of `repo.Create` from repo_sqlc.go: generates an ID when `link.ID` is
`uuid.Nil`, then runs the `CreateLink` query (an oracle) and classifies
its error with `mapRepoError`. `ids` is the outcome of `r.ids.Generate()`. -/
def repoCreate (ids : Except GoErr Nat) (qCreate : CreateLinkParams → Except GoErr DbRow)
    (link : Link) : Except GoErr Link :=
  match (if link.id = 0 then ids else .ok link.id) with
  | .error e => .error (.errx "shortener.repo.Create" .unavailable e)
  | .ok id =>
    match qCreate ⟨id, link.originalURL, link.slug⟩ with
    | .error e => .error (mapRepoError "shortener.repo.Create" e)
    | .ok row => toDomainLink row

/-- Model of `repo.GetBySlug` from repo_sqlc.go over a querier oracle. -/
def repoGetBySlug (qGet : String → Except GoErr DbRow) (slug : String) :
    Except GoErr Link :=
  match qGet slug with
  | .error e => .error (mapRepoError "shortener.repo.GetBySlug" e)
  | .ok row => toDomainLink row

/-- Model of `repo.ResolveAndTrack` from repo_sqlc.go over a querier oracle. -/
def repoResolveAndTrack (qRes : String → Except GoErr DbRow) (slug : String) :
    Except GoErr Link :=
  match qRes slug with
  | .error e => .error (mapRepoError "shortener.repo.ResolveAndTrack" e)
  | .ok row => toDomainLink row

/-- Model of `repo.Delete` from repo_sqlc.go over a querier oracle. -/
def repoDelete (qDel : String → Option GoErr) (slug : String) : Option GoErr :=
  match qDel slug with
  | some e => some (mapRepoError "shortener.repo.Delete" e)
  | none => none

/-- Observable collaborator events of a `Create` call: a successful or
failed slug generation, an existence lookup (`repo.GetBySlug`) for a
candidate, and a store-level create for a slug. -/
inductive Ev where
  | genOk (slug : String)
  | genFail
  | getCall (slug : String)
  | createCall (slug : String)
deriving DecidableEq, Repr

/-- Operation label of `service.Create`. -/
def svcCreateOp : String := "shortener.service.Create"

/-- Model of `service.generateUniqueSlug` from service.go: up to `MaxRetries`
attempts; each attempt asks the generator (an oracle indexed by call
number) and then checks availability with `repo.GetBySlug`; `NotFound`
means available, success means taken (retry), any other error aborts.
Returns the outcome together with the collaborator event trace. -/
def generateUniqueSlugGo (rget : String → Except GoErr Link)
    (gen : Nat → Except GoErr String) :
    Nat → Nat → Except GoErr String × List Ev
  | 0, _ =>
    (.error (.errx "sluggen.Generate" .unavailable
        (.errString "failed to generate unique slug after maximum retries")), [])
  | fuel + 1, i =>
    match gen i with
    | .error e => (.error (.errx "sluggen.Generate" .unavailable e), [.genFail])
    | .ok s =>
      match rget s with
      | .error e =>
        if KindOf e = .notFound then (.ok s, [.genOk s, .getCall s])
        else (.error e, [.genOk s, .getCall s])
      | .ok _ =>
        let next := generateUniqueSlugGo rget gen fuel (i + 1)
        (next.1, .genOk s :: .getCall s :: next.2)

/-- The `Link` literal `service.Create` builds before calling the
repository (ID generation happens in the repository). -/
def mkNewLink (url slug : String) : Link :=
  { originalURL := url, slug := slug }

/-- Tail of `service.Create`: the single `repo.Create` call and its error
wrapping. -/
def serviceCreateFinish (rc : Link → Except GoErr Link) (url slug : String)
    (tr : List Ev) : Except GoErr Link × List Ev :=
  match rc (mkNewLink url slug) with
  | .error e => (.error (.errx svcCreateOp (KindOf e) e), tr ++ [.createCall slug])
  | .ok created => (.ok created, tr ++ [.createCall slug])

/-- Model of `service.Create` from service.go over repository and generator
oracles, instrumented with the collaborator event trace. -/
def serviceCreateGo (rc : Link → Except GoErr Link)
    (rget : String → Except GoErr Link) (gen : Nat → Except GoErr String)
    (originalURL customSlug : String) : Except GoErr Link × List Ev :=
  match validateURL originalURL with
  | some e => (.error (.errx svcCreateOp .invalid e), [])
  | none =>
    if customSlug = "" then
      match generateUniqueSlugGo rget gen MaxRetries 0 with
      | (.error e, tr) => (.error (.errx svcCreateOp (KindOf e) e), tr)
      | (.ok slug, tr) => serviceCreateFinish rc originalURL slug tr
    else
      match validateSlug customSlug with
      | some e => (.error (.errx svcCreateOp .invalid e), [])
      | none => serviceCreateFinish rc originalURL customSlug []

/-- Model of `service.GetBySlug` from service.go over a repository oracle. -/
def serviceGetBySlug (rget : String → Except GoErr Link) (slug : String) :
    Except GoErr Link :=
  match validateSlugNotEmpty slug with
  | some e => .error (.errx "shortener.service.GetBySlug" .invalid e)
  | none =>
    match rget slug with
    | .error e => .error (.errx "shortener.service.GetBySlug" (KindOf e) e)
    | .ok link => .ok link

/-- Model of `service.Resolve` from service.go over a repository oracle. -/
def serviceResolve (rres : String → Except GoErr Link) (slug : String) :
    Except GoErr String :=
  match validateSlugNotEmpty slug with
  | some e => .error (.errx "shortener.service.Resolve" .invalid e)
  | none =>
    match rres slug with
    | .error e => .error (.errx "shortener.service.Resolve" (KindOf e) e)
    | .ok link => .ok link.originalURL

/-- Model of `service.Delete` from service.go over a repository oracle. -/
def serviceDelete (rdel : String → Option GoErr) (slug : String) : Option GoErr :=
  match validateSlugNotEmpty slug with
  | some e => some (.errx "shortener.service.Delete" .invalid e)
  | none =>
    match rdel slug with
    | some e => some (.errx "shortener.service.Delete" (KindOf e) e)
    | none => none

/-- A schema-valid row of the links table: `created_at` and `updated_at`
are NOT NULL columns, so valid rows carry both timestamps. -/
def ValidRow (r : DbRow) : Prop := r.createdAt ≠ none ∧ r.updatedAt ≠ none

/-- An error value that is a `*errx.Error` carrying a non-empty operation
label and a kind other than `Unknown`. -/
def IsClassified (e : GoErr) : Prop :=
  ∃ o k c, e = GoErr.errx o k c ∧ k ≠ Errx.Kind.unknown ∧ o ≠ ""

end Shortener

namespace SpecModel

open Shortener

/-- Modelled from the spec: the default generated-slug retry bound of the
current service variant (config field `SlugMaxRetries`, exercised by the
service tests, whose source file is absent from the snapshot) — "up to
`N` attempts (default 3, configurable)". -/
def defaultSlugMaxRetries : Nat := 3

/-- Modelled from the spec: the terminal error of the generated-slug path
after exhausting all attempts — "return a terminal `Unavailable` error";
the service tests expect operation `shortener.service.Create` and kind
`Unavailable`. -/
def exhaustedErr : GoErr :=
  .errx svcCreateOp .unavailable
    (.errString "failed to generate unique slug after maximum retries")

/-- Modelled from the spec: the generated-slug path of the current
`service.Create` (the variant taking a `CreateLinkRequest` and driving
retries off store-create conflicts; its source file is absent from the
snapshot — only its tests and its caller in handler.go are present).
Each attempt generates a fresh candidate (`gen` is the generator oracle
indexed by invocation) and attempts a store-level create (`store`,
indexed by attempt); on success it returns immediately; on a
uniqueness-violation `Conflict` it continues to the next attempt; on any
other store error it aborts and surfaces it; after exhausting all
attempts it returns the terminal `Unavailable` error. No availability
pre-check is performed. `fuel` is the number of attempts left, `i` the
attempt index. -/
def genPath (gen : Nat → Except GoErr String)
    (store : Nat → String → Except GoErr Link) :
    Nat → Nat → Except GoErr Link × List Ev
  | 0, _ => (.error exhaustedErr, [])
  | fuel + 1, i =>
    match gen i with
    | .error e => (.error (.errx svcCreateOp .unavailable e), [.genFail])
    | .ok s =>
      match store i s with
      | .ok created => (.ok created, [.genOk s, .createCall s])
      | .error e =>
        if KindOf e = .conflict then
          let next := genPath gen store fuel (i + 1)
          (next.1, .genOk s :: .createCall s :: next.2)
        else
          (.error (.errx svcCreateOp (KindOf e) e), [.genOk s, .createCall s])

/-- Modelled from the spec: the current `service.Create` (source absent
from the snapshot, see `SpecModel.genPath`): validate the URL, then
either take the custom-slug path (validate format, one store-level
create, a uniqueness violation surfaced directly as `Conflict`, no
retry) or the generated-slug path with `n` attempts. -/
def create (n : Nat) (gen : Nat → Except GoErr String)
    (store : Nat → String → Except GoErr Link)
    (originalURL customSlug : String) : Except GoErr Link × List Ev :=
  match validateURL originalURL with
  | some e => (.error (.errx svcCreateOp .invalid e), [])
  | none =>
    if customSlug = "" then
      genPath gen store n 0
    else
      match validateSlug customSlug with
      | some e => (.error (.errx svcCreateOp .invalid e), [])
      | none =>
        match store 0 customSlug with
        | .ok created => (.ok created, [.createCall customSlug])
        | .error e =>
          (.error (.errx svcCreateOp (KindOf e) e), [.createCall customSlug])

/-- Number of generator invocations recorded in a trace. -/
def countGen (tr : List Ev) : Nat :=
  tr.countP fun e =>
    match e with
    | .genOk _ => true
    | .genFail => true
    | _ => false

/-- Number of store-level create invocations recorded in a trace. -/
def countCreate (tr : List Ev) : Nat :=
  tr.countP fun e =>
    match e with
    | .createCall _ => true
    | _ => false

/-- The expected event trace of `m` generated-slug attempts starting at
attempt `i`: each attempt is one fresh generator invocation immediately
followed by one store-level create of exactly that attempt's candidate. -/
def attemptBlocks (g : Nat → String) : Nat → Nat → List Ev
  | _, 0 => []
  | i, m + 1 => Ev.genOk (g i) :: Ev.createCall (g i) :: attemptBlocks g (i + 1) m

end SpecModel

namespace Shortener

/-- Every index below 62 selects a character of the base62 alphabet. -/
theorem base62_getD_mem : ∀ k : Nat, k < 62 →
    Sluggen.base62Chars.data.getD k ' ' ∈ Sluggen.base62Chars.data := by
  decide

/-- C4: boundary classification of storage errors. The no-rows arm
(`NotFound`), the fallback arm (`Unavailable`) and the Conflict arm for
constraint name `links_slug_unique` all behave as coded; but the
uniqueness-violation error the store actually raises under the
soft-delete migration carries constraint name `links_slug_unique_active`,
which `isSlugUniqueViolation` does not recognize, so `mapRepoError`
classifies it `Unavailable` instead of `Conflict` — contradicting the
claim and the repository's own tests (`TestMapRepoError`,
"maps unique constraint violation to Conflict"). -/
theorem mapRepoError_misses_active_constraint :
    Errx.KindOf (mapRepoError "shortener.repo.Create" GoErr.pgNoRows) = .notFound ∧
    Errx.KindOf (mapRepoError "shortener.repo.GetBySlug" GoErr.pgNoRows) = .notFound ∧
    Errx.KindOf (mapRepoError "shortener.repo.ResolveAndTrack" GoErr.pgNoRows) = .notFound ∧
    Errx.KindOf (mapRepoError "shortener.repo.Delete" (GoErr.errString "connection refused")) = .unavailable ∧
    Errx.KindOf (mapRepoError "shortener.repo.Create" (GoErr.pgError "23505" "links_slug_unique")) = .conflict ∧
    dbCreateLink
        [{ id := 7, originalUrl := "https://a.example", slug := "taken",
           accessCount := 0, createdAt := some 1, updatedAt := some 1 }]
        ⟨9, "https://b.example", "taken"⟩ 5
      = .error (.pgError "23505" linksSlugUniqueActiveIndexName) ∧
    isSlugUniqueViolation (.pgError "23505" linksSlugUniqueActiveIndexName) = false ∧
    Errx.KindOf (mapRepoError "shortener.repo.Create"
        (.pgError "23505" linksSlugUniqueActiveIndexName)) = .unavailable := by
  refine ⟨rfl, rfl, rfl, rfl, rfl, rfl, rfl, rfl⟩

end Shortener

namespace Sluggen

/-- C5: for every positive length and any entropy bytes, `Generate`
returns a string of exactly `length` characters, each drawn from the
62-character base62 alphabet; for every non-positive length it fails with
the invalid-length error for ANY entropy oracle, including a failing one
— i.e. before the randomness source is touched. -/
theorem generate_length_charset :
    (∀ (length : Int) (bytes : Nat → Nat), 0 < length →
      ∃ s : String, Generate length (.ok bytes) = .ok s ∧
        s.length = length.toNat ∧ ∀ c ∈ s.data, c ∈ base62Chars.data) ∧
    (∀ (length : Int) (entropy : Except GoErr (Nat → Nat)), length ≤ 0 →
      Generate length entropy = .error (.errString "length must be positive")) := by
  constructor
  · intro length bytes hpos
    refine ⟨String.mk ((List.range length.toNat).map
        (fun i => base62Chars.data.getD ((bytes i) % 62) ' ')), ?_, ?_, ?_⟩
    · unfold Generate
      rw [if_neg (by omega)]
    · show (String.mk _).length = _
      simp only [String.length, List.length_map, List.length_range]
    · intro c hc
      simp only [String.mk] at hc
      simp only [List.mem_map, List.mem_range] at hc
      obtain ⟨i, -, rfl⟩ := hc
      exact Shortener.base62_getD_mem _ (Nat.mod_lt _ (by norm_num))
  · intro length entropy hle
    unfold Generate
    rw [if_pos hle]

end Sluggen

/-- Witness for C5: length 7 with the identity byte stream succeeds, and
lengths 0 and -1 fail with the invalid-length error even though the
entropy source itself is failing. -/
theorem generate_length_charset_witness :
    (Sluggen.Generate 7 (Except.ok fun i => i)).isOk = true ∧
    Sluggen.Generate 0 (.error (.errString "entropy exhausted"))
      = .error (.errString "length must be positive") ∧
    Sluggen.Generate (-1) (.error (.errString "entropy exhausted"))
      = .error (.errString "length must be positive") := by
  refine ⟨?_, Sluggen.generate_length_charset.2 0 _ (by norm_num),
    Sluggen.generate_length_charset.2 (-1) _ (by norm_num)⟩
  obtain ⟨s, hs, -, -⟩ := Sluggen.generate_length_charset.1 7 (fun i => i) (by norm_num)
  rw [hs]
  rfl

namespace Shortener

/-- C3: a `Create` with a non-empty, format-valid custom slug whose
store-level create reports a uniqueness violation (an error classified
`Conflict` at the repository boundary) performs exactly one store-level
create (the trace is a single `createCall`), never invokes the slug
generator (no regeneration), and surfaces the `Conflict` to the caller. -/
theorem create_customSlug_conflict_no_retry
    (rc : Link → Except GoErr Link) (rget : String → Except GoErr Link)
    (gen : Nat → Except GoErr String) (url slug : String) (e : GoErr)
    (hurl : validateURL url = none) (hne : slug ≠ "")
    (hslug : validateSlug slug = none)
    (hconf : rc (mkNewLink url slug) = .error e)
    (hk : Errx.KindOf e = .conflict) :
    serviceCreateGo rc rget gen url slug
      = (.error (.errx svcCreateOp .conflict e), [.createCall slug]) := by
  unfold serviceCreateGo serviceCreateFinish
  rw [hurl, if_neg hne, hslug, hconf]
  simp [hk]

end Shortener

/-- Witness for C3: a concrete custom-slug create against a repository
that reports a duplicate slug: one store create, no generator call,
`Conflict` surfaced. -/
theorem create_customSlug_conflict_no_retry_witness :
    Shortener.serviceCreateGo
        (fun _ => .error (.errx "shortener.repo.Create" .conflict (.errString "duplicate slug")))
        (fun _ => .error .pgNoRows) (fun _ => .ok "abc1234")
        "https://example.com" "my-slug"
      = (.error (.errx Shortener.svcCreateOp .conflict
            (.errx "shortener.repo.Create" .conflict (.errString "duplicate slug"))),
         [.createCall "my-slug"]) :=
  Shortener.create_customSlug_conflict_no_retry _ _ _ _ _ _
    (by decide) (by decide) (by decide) rfl rfl

namespace Shortener

/-- C6: `validateURL` accepts exactly the non-empty strings of at most
2048 characters that parse (in the `GoNetURL.parse` model of
net/url.Parse) with scheme `http` or `https` and a non-empty host; a
rejected URL surfaces from `Create` with kind `Invalid`; concretely
"ftp://example.com" and "https://" are rejected while
"https://example.com" passes. -/
theorem validateURL_spec :
    (∀ r : String, validateURL r = none ↔
      (r ≠ "" ∧ r.length ≤ 2048 ∧
        ∃ u, GoNetURL.parse r = some u ∧
          (u.scheme = "http" ∨ u.scheme = "https") ∧ u.host ≠ "")) ∧
    (∀ (rc : Link → Except GoErr Link) (rget : String → Except GoErr Link)
        (gen : Nat → Except GoErr String) (slug r : String) (e : GoErr),
      validateURL r = some e →
      (serviceCreateGo rc rget gen r slug).1
        = .error (.errx svcCreateOp .invalid e)) ∧
    (validateURL "ftp://example.com").isSome = true ∧
    (validateURL "https://").isSome = true ∧
    validateURL "https://example.com" = none := by
  refine ⟨?_, ?_, by decide, by decide, by decide⟩
  · intro r
    unfold validateURL
    split_ifs with h1 h2
    · simp [h1]
    · constructor
      · intro h
        cases h
      · rintro ⟨-, hlen, -⟩
        unfold MaxURLLength at h2
        omega
    · cases hp : GoNetURL.parse r with
      | none => simp [hp]
      | some u =>
        simp only [hp, Option.some.injEq]
        constructor
        · intro h
          refine ⟨h1, by unfold MaxURLLength at h2; omega, u, rfl, ?_⟩
          by_cases hs : u.scheme = ""
          · rw [if_pos hs] at h
            cases h
          · rw [if_neg hs] at h
            by_cases hh : (u.scheme ≠ "http" && u.scheme ≠ "https") = true
            · rw [if_pos hh] at h
              cases h
            · rw [if_neg hh] at h
              simp only [Bool.and_eq_true, decide_eq_true_eq, not_and_or, not_not] at hh
              by_cases hho : u.host = ""
              · rw [if_pos hho] at h
                cases h
              · exact ⟨hh.imp id id, hho⟩
        · rintro ⟨-, -, u', rfl, hsch, hhost⟩
          have hs : u.scheme ≠ "" := by
            rcases hsch with h | h <;> rw [h] <;> decide
          have hss : (u.scheme ≠ "http" && u.scheme ≠ "https") ≠ true := by
            rcases hsch with h | h <;> simp [h]
          rw [if_neg hs, if_neg hss, if_neg hhost]
  · intro rc rget gen slug r e h
    unfold serviceCreateGo
    rw [h]

end Shortener

/-- Witness for C6: the accepted URL, and a concrete `Create` call with
the ftp URL rejected as `Invalid`. -/
theorem validateURL_spec_witness :
    Shortener.validateURL "https://example.com" = none ∧
    (Shortener.serviceCreateGo (fun _ => .error .pgNoRows) (fun _ => .error .pgNoRows)
        (fun _ => .ok "abc1234") "ftp://example.com" "my-slug").1
      = .error (.errx Shortener.svcCreateOp .invalid
          (.errString "url scheme must be http or https")) :=
  ⟨Shortener.validateURL_spec.2.2.2.2,
   Shortener.validateURL_spec.2.1 _ _ _ _ _ _ (by decide)⟩

namespace Shortener

/-- C7: classification of `service.GetBySlug`: an empty slug yields
`Invalid` without consulting the store; a non-empty slug with no active
row in the store yields `NotFound` (via the no-rows result of the
`GetLinkBySLug` query); a storage failure yields `Unavailable`; on
success the stored link is returned unchanged. -/
theorem getBySlug_classification :
    (∀ rget : String → Except GoErr Link,
      serviceGetBySlug rget ""
        = .error (.errx "shortener.service.GetBySlug" .invalid
            (.errString "slug cannot be empty"))) ∧
    (∀ (db : List DbRow) (s : String), s ≠ "" →
      (∀ r ∈ db, ¬(r.slug = s ∧ r.deletedAt = none)) →
      serviceGetBySlug (repoGetBySlug (dbGetLinkBySLug db)) s
        = .error (.errx "shortener.service.GetBySlug" .notFound
            (.errx "shortener.repo.GetBySlug" .notFound .pgNoRows))) ∧
    (∀ (s msg : String), s ≠ "" →
      serviceGetBySlug (repoGetBySlug (fun _ => .error (.errString msg))) s
        = .error (.errx "shortener.service.GetBySlug" .unavailable
            (.errx "shortener.repo.GetBySlug" .unavailable (.errString msg)))) ∧
    (∀ (qGet : String → Except GoErr DbRow) (s : String) (row : DbRow) (l : Link),
      s ≠ "" → qGet s = .ok row → toDomainLink row = .ok l →
      serviceGetBySlug (repoGetBySlug qGet) s = .ok l) := by
  refine ⟨fun rget => rfl, ?_, ?_, ?_⟩
  · intro db s hne habs
    have hfind : db.find? (fun r => r.slug = s && r.deletedAt.isNone) = none := by
      rw [List.find?_eq_none]
      intro r hr
      have := habs r hr
      simp only [Bool.and_eq_true, decide_eq_true_eq, Option.isNone_iff_eq_none]
      tauto
    unfold serviceGetBySlug validateSlugNotEmpty
    rw [if_neg hne]
    unfold repoGetBySlug dbGetLinkBySLug
    rw [hfind]
    rfl
  · intro s msg hne
    unfold serviceGetBySlug validateSlugNotEmpty
    rw [if_neg hne]
    rfl
  · intro qGet s row l hne hq hdom
    simp [serviceGetBySlug, validateSlugNotEmpty, repoGetBySlug, hne, hq, hdom]

end Shortener

/-- Witness for C7: concrete lookups — empty slug, an absent slug in a
one-row store, a failing store, and a successful lookup returning the
stored link unchanged. -/
theorem getBySlug_classification_witness :
    Shortener.serviceGetBySlug (fun _ => .error .pgNoRows) ""
      = .error (.errx "shortener.service.GetBySlug" .invalid
          (.errString "slug cannot be empty")) ∧
    Shortener.serviceGetBySlug
        (Shortener.repoGetBySlug (Shortener.dbGetLinkBySLug
          [{ id := 3, originalUrl := "https://a.example", slug := "taken",
             accessCount := 0, createdAt := some 1, updatedAt := some 1 }])) "missing"
      = .error (.errx "shortener.service.GetBySlug" .notFound
          (.errx "shortener.repo.GetBySlug" .notFound .pgNoRows)) ∧
    Shortener.serviceGetBySlug
        (Shortener.repoGetBySlug (fun _ => .error (.errString "db down"))) "abc123"
      = .error (.errx "shortener.service.GetBySlug" .unavailable
          (.errx "shortener.repo.GetBySlug" .unavailable (.errString "db down"))) ∧
    Shortener.serviceGetBySlug
        (Shortener.repoGetBySlug (fun _ =>
          .ok { id := 3, originalUrl := "https://a.example", slug := "abc123",
                accessCount := 5, createdAt := some 1, updatedAt := some 2 })) "abc123"
      = .ok { id := 3, originalURL := "https://a.example", slug := "abc123",
              accessCount := 5, createdAt := 1, updatedAt := 2 } :=
  ⟨Shortener.getBySlug_classification.1 _,
   Shortener.getBySlug_classification.2.1 _ _ (by decide) (by decide),
   Shortener.getBySlug_classification.2.2.1 _ _ (by decide),
   Shortener.getBySlug_classification.2.2.2 _ _ _ _ (by decide) rfl rfl⟩

namespace Idgen

/-- C8: the repository configures the v7 generator with a retry budget of
1 extra attempt by default, so the `uuid.NewV7` primitive is invoked at
most twice; when both attempts fail, `Generate` fails with the wrapped
last error and `repo.Create` surfaces it as a terminal `Unavailable`
error, having invoked the primitive exactly twice. -/
theorem v7_retry_bound_and_unavailable
    (prim : Nat → Except GoErr Nat) (qc : Shortener.CreateLinkParams → Except GoErr Shortener.DbRow)
    (link : Shortener.Link) (e0 e1 : GoErr)
    (h0 : prim 0 = .error e0) (h1 : prim 1 = .error e1) (hid : link.id = 0) :
    newRepositoryDefaultIDRetries = 1 ∧
    (∀ p : Nat → Except GoErr Nat, v7Calls newRepositoryDefaultIDRetries p ≤ 2) ∧
    v7Calls 1 prim = 2 ∧
    v7Generate 1 prim = .error (.wrapped (v7FailMsg 2) e1) ∧
    Shortener.repoCreate (v7Generate 1 prim) qc link
      = .error (.errx "shortener.repo.Create" .unavailable
          (.wrapped (v7FailMsg 2) e1)) := by
  have hdef : newRepositoryDefaultIDRetries = 1 := rfl
  have hgen : v7Generate 1 prim = .error (.wrapped (v7FailMsg 2) e1) := by
    unfold v7Generate v7Go
    rw [h0]
    unfold v7Go
    rw [h1]
    rfl
  refine ⟨hdef, ?_, ?_, hgen, ?_⟩
  · intro p
    rw [hdef]
    unfold v7Calls v7CallsGo
    cases hp0 : p 0
    · cases hp1 : p 1 <;> simp [v7CallsGo, hp1]
    · simp
  · unfold v7Calls v7CallsGo
    rw [h0]
    unfold v7CallsGo
    rw [h1]
    rfl
  · unfold Shortener.repoCreate
    rw [if_pos hid, hgen]

end Idgen

/-- Witness for C8: both attempts of a concrete always-failing primitive
fail; exactly two invocations; `repo.Create` reports `Unavailable`. -/
theorem v7_retry_bound_and_unavailable_witness :
    Idgen.v7Calls 1 (fun _ => .error (.errString "clock error")) = 2 ∧
    Shortener.repoCreate
        (Idgen.v7Generate 1 (fun _ => .error (.errString "clock error")))
        (fun _ => .error .pgNoRows) { slug := "abc1234" }
      = .error (.errx "shortener.repo.Create" .unavailable
          (.wrapped (Idgen.v7FailMsg 2) (.errString "clock error"))) := by
  obtain ⟨-, -, hcalls, -, hcreate⟩ :=
    Idgen.v7_retry_bound_and_unavailable (fun _ => .error (.errString "clock error"))
      (fun _ => .error .pgNoRows) { slug := "abc1234" }
      (.errString "clock error") (.errString "clock error") rfl rfl rfl
  exact ⟨hcalls, hcreate⟩

namespace Shortener

/-- C9: `service.Delete` of a non-empty slug returns nil even when no
active link with that slug exists: the `SoftDeleteLink` UPDATE is an
`:exec` whose zero-row match is not an error, so the repository and the
service both report success; with no matching active row the table is
unchanged. -/
theorem delete_absent_slug_silent
    (db : List DbRow) (s : String) (now : Nat) (hne : s ≠ "") :
    (sqlSoftDelete db s now).2 = none ∧
    serviceDelete (repoDelete fun q => (sqlSoftDelete db q now).2) s = none ∧
    ((∀ r ∈ db, ¬(r.slug = s ∧ r.deletedAt = none)) →
      (sqlSoftDelete db s now).1 = db) := by
  refine ⟨rfl, ?_, ?_⟩
  · unfold serviceDelete validateSlugNotEmpty
    rw [if_neg hne]
    rfl
  · intro habs
    unfold sqlSoftDelete softDeleteLink
    conv_rhs => rw [show db = db.map id from (List.map_id db).symm]
    apply List.map_congr_left
    intro r hr
    have hcond : (r.slug = s && r.deletedAt.isNone) = false := by
      have := habs r hr
      simp only [Bool.and_eq_false_iff, decide_eq_false_iff_not, Option.isNone_eq_false_iff]
      by_cases h : r.slug = s
      · right
        rcases Option.eq_none_or_eq_some r.deletedAt with hd | ⟨v, hd⟩
        · exact absurd ⟨h, hd⟩ this
        · simp [Option.isSome_iff_exists, hd]
      · left
        simp [h]
    rw [hcond]
    rfl

end Shortener

/-- Witness for C9: deleting a slug absent from a one-row store succeeds
silently and leaves the store unchanged. -/
theorem delete_absent_slug_silent_witness :
    Shortener.serviceDelete
        (Shortener.repoDelete fun q =>
          (Shortener.sqlSoftDelete
            [{ id := 3, originalUrl := "https://a.example", slug := "taken",
               accessCount := 0, createdAt := some 1, updatedAt := some 1 }] q 9).2)
        "missing" = none ∧
    (Shortener.sqlSoftDelete
        [{ id := 3, originalUrl := "https://a.example", slug := "taken",
           accessCount := 0, createdAt := some 1, updatedAt := some 1 }] "missing" 9).1
      = [{ id := 3, originalUrl := "https://a.example", slug := "taken",
           accessCount := 0, createdAt := some 1, updatedAt := some 1 }] := by
  obtain ⟨-, hsvc, hdb⟩ :=
    Shortener.delete_absent_slug_silent
      [{ id := 3, originalUrl := "https://a.example", slug := "taken",
         accessCount := 0, createdAt := some 1, updatedAt := some 1 }] "missing" 9
      (by decide)
  exact ⟨hsvc, hdb (by decide)⟩

namespace SpecModel

open Shortener

/-- Closed form of `attemptBlocks`: the `j`-th block submits the
`(i+j)`-th generator output. -/
theorem attemptBlocks_eq_flatMap (g : Nat → String) :
    ∀ m i, attemptBlocks g i m
      = (List.range m).flatMap fun j => [Ev.genOk (g (i + j)), Ev.createCall (g (i + j))] := by
  intro m
  induction m with
  | zero => intro i; rfl
  | succ n ih =>
    intro i
    rw [List.range_succ_eq_map, List.flatMap_cons, List.flatMap_map]
    show attemptBlocks g i (n + 1) = _
    unfold attemptBlocks
    rw [ih (i + 1)]
    simp only [Nat.add_zero]
    refine congrArg (fun t => Ev.genOk (g i) :: Ev.createCall (g i) :: t) ?_
    refine congrArg _ ?_
    funext j
    rw [show i + 1 + j = i + (j + 1) by omega]

/-- No existence lookup appears in an attempt-block trace. -/
theorem getCall_not_mem_attemptBlocks (g : Nat → String) :
    ∀ m i s, Ev.getCall s ∉ attemptBlocks g i m := by
  intro m
  induction m with
  | zero => intro i s h; cases h
  | succ n ih =>
    intro i s h
    unfold attemptBlocks at h
    rw [List.mem_cons, List.mem_cons] at h
    rcases h with h | h | h
    · simp at h
    · simp at h
    · exact (ih (i + 1) s) h

/-- The generator is invoked exactly once per attempt block. -/
theorem countGen_attemptBlocks (g : Nat → String) :
    ∀ m i, countGen (attemptBlocks g i m) = m := by
  intro m
  induction m with
  | zero => intro i; rfl
  | succ n ih =>
    intro i
    unfold attemptBlocks countGen
    simp only [List.countP_cons]
    have := ih (i + 1)
    unfold countGen at this
    rw [this]
    rfl

/-- The store-level create is invoked exactly once per attempt block. -/
theorem countCreate_attemptBlocks (g : Nat → String) :
    ∀ m i, countCreate (attemptBlocks g i m) = m := by
  intro m
  induction m with
  | zero => intro i; rfl
  | succ n ih =>
    intro i
    unfold attemptBlocks countCreate
    simp only [List.countP_cons]
    have := ih (i + 1)
    unfold countCreate at this
    rw [this]
    rfl

/-- One step of `genPath` when the generator succeeds. -/
theorem genPath_succ_ok (gen : Nat → Except GoErr String)
    (store : Nat → String → Except GoErr Link) {i : Nat} {s : String}
    (hgen : gen i = .ok s) (n : Nat) :
    genPath gen store (n + 1) i
      = match store i s with
        | .ok created => (.ok created, [Ev.genOk s, Ev.createCall s])
        | .error e =>
          if Errx.KindOf e = .conflict then
            ((genPath gen store n (i + 1)).1,
             Ev.genOk s :: Ev.createCall s :: (genPath gen store n (i + 1)).2)
          else
            (.error (.errx Shortener.svcCreateOp (Errx.KindOf e) e),
             [Ev.genOk s, Ev.createCall s]) := by
  simp only [genPath, hgen]

/-- When the generator always succeeds, the trace of the generated-slug
path is exactly a prefix of attempt blocks. -/
theorem genPath_trace (g : Nat → String) (gen : Nat → Except GoErr String)
    (store : Nat → String → Except GoErr Link)
    (hg : ∀ i, gen i = .ok (g i)) :
    ∀ fuel i, ∃ m, m ≤ fuel ∧ (genPath gen store fuel i).2 = attemptBlocks g i m := by
  intro fuel
  induction fuel with
  | zero => intro i; exact ⟨0, Nat.le_refl 0, rfl⟩
  | succ n ih =>
    intro i
    rw [genPath_succ_ok gen store (hg i) n]
    split
    · exact ⟨1, by omega, rfl⟩
    · split_ifs with hk
      · obtain ⟨m, hm, htr⟩ := ih (i + 1)
        refine ⟨m + 1, by omega, ?_⟩
        show Ev.genOk (g i) :: Ev.createCall (g i) :: (genPath gen store n (i + 1)).2
          = attemptBlocks g i (m + 1)
        rw [htr]
        rfl
      · exact ⟨1, by omega, rfl⟩

/-- When every attempt's store-level create reports `Conflict`, all
`fuel` attempts run, the result is the terminal error, and the trace is
exactly `fuel` attempt blocks. -/
theorem genPath_all_conflict (g : Nat → String) (gen : Nat → Except GoErr String)
    (store : Nat → String → Except GoErr Link)
    (hg : ∀ i, gen i = .ok (g i))
    (hconf : ∀ j, ∃ e, store j (g j) = .error e ∧ Errx.KindOf e = .conflict) :
    ∀ fuel i, (genPath gen store fuel i).1 = .error exhaustedErr ∧
      (genPath gen store fuel i).2 = attemptBlocks g i fuel := by
  intro fuel
  induction fuel with
  | zero => intro i; exact ⟨rfl, rfl⟩
  | succ n ih =>
    intro i
    obtain ⟨e, hs, hk⟩ := hconf i
    rw [genPath_succ_ok gen store (hg i) n, hs]
    simp only [if_pos hk]
    obtain ⟨ihres, ihtr⟩ := ih (i + 1)
    constructor
    · exact ihres
    · show Ev.genOk (g i) :: Ev.createCall (g i) :: (genPath gen store n (i + 1)).2
        = attemptBlocks g i (n + 1)
      rw [ihtr]
      rfl

end SpecModel

namespace SpecModel

open Shortener

/-- With a valid URL and empty custom slug, `create` runs the
generated-slug path. -/
theorem create_generated_reduces (n : Nat) (gen : Nat → Except GoErr String)
    (store : Nat → String → Except GoErr Link) (url : String)
    (hurl : validateURL url = none) :
    create n gen store url "" = genPath gen store n 0 := by
  simp [create, hurl]

/-- C1: in the generated-slug path of `create`, every attempt consists of
one fresh generator invocation immediately followed by one store-level
create submitting exactly that attempt's candidate (the `j`-th create
submits the `j`-th generator output — a previously submitted string is
never re-submitted), and no store existence lookup (`getCall`) ever
occurs: there is no pre-check-then-insert. -/
theorem create_generated_fresh_insert_no_precheck
    (n : Nat) (g : Nat → String) (gen : Nat → Except GoErr String)
    (store : Nat → String → Except GoErr Link) (url : String)
    (hurl : validateURL url = none)
    (hg : ∀ i, gen i = .ok (g i)) :
    (∃ m, m ≤ n ∧
      (create n gen store url "").2
        = (List.range m).flatMap fun j => [Ev.genOk (g j), Ev.createCall (g j)]) ∧
    (∀ s, Ev.getCall s ∉ (create n gen store url "").2) := by
  rw [create_generated_reduces n gen store url hurl]
  obtain ⟨m, hm, htr⟩ := genPath_trace g gen store hg n 0
  constructor
  · refine ⟨m, hm, ?_⟩
    rw [htr, attemptBlocks_eq_flatMap]
    simp
  · intro s hmem
    rw [htr] at hmem
    exact getCall_not_mem_attemptBlocks g m 0 s hmem

/-- C2: when every attempt's store-level create reports `Conflict`,
`create` fails with the terminal `Unavailable` error and the generator
and the store are each invoked exactly `n` times (the configured
maximum; 3 by default). -/
theorem create_retry_bound_unavailable
    (n : Nat) (g : Nat → String) (gen : Nat → Except GoErr String)
    (store : Nat → String → Except GoErr Link) (url : String)
    (hurl : validateURL url = none)
    (hg : ∀ i, gen i = .ok (g i))
    (hconf : ∀ j, ∃ e, store j (g j) = .error e ∧ Errx.KindOf e = .conflict) :
    defaultSlugMaxRetries = 3 ∧
    (create n gen store url "").1 = .error exhaustedErr ∧
    Errx.KindOf exhaustedErr = .unavailable ∧
    countGen (create n gen store url "").2 = n ∧
    countCreate (create n gen store url "").2 = n := by
  rw [create_generated_reduces n gen store url hurl]
  obtain ⟨hres, htr⟩ := genPath_all_conflict g gen store hg hconf n 0
  refine ⟨rfl, hres, rfl, ?_, ?_⟩
  · rw [htr]
    exact countGen_attemptBlocks g n 0
  · rw [htr]
    exact countCreate_attemptBlocks g n 0

end SpecModel

/-- Witness for C1: with a deterministic generator and an
always-conflicting store, the trace of a concrete `create` call contains
no existence lookup. -/
theorem create_generated_fresh_insert_no_precheck_witness :
    Shortener.Ev.getCall "abc1234" ∉
      (SpecModel.create 3 (fun _ => .ok "abc1234")
        (fun _ _ => .error (.errx "shortener.repo.Create" .conflict
          (.errString "duplicate slug")))
        "https://example.com" "").2 :=
  (SpecModel.create_generated_fresh_insert_no_precheck 3 (fun _ => "abc1234")
    (fun _ => .ok "abc1234")
    (fun _ _ => .error (.errx "shortener.repo.Create" .conflict
      (.errString "duplicate slug")))
    "https://example.com"
    (by decide) (fun _ => rfl)).2 "abc1234"

/-- Witness for C2: a deterministic generator whose candidate always
collides: `Unavailable` after exactly 3 generator and 3 store
invocations. -/
theorem create_retry_bound_unavailable_witness :
    (SpecModel.create 3 (fun _ => .ok "abc1234")
        (fun _ _ => .error (.errx "shortener.repo.Create" .conflict
          (.errString "duplicate slug")))
        "https://example.com" "").1 = .error SpecModel.exhaustedErr ∧
    SpecModel.countGen
      (SpecModel.create 3 (fun _ => .ok "abc1234")
        (fun _ _ => .error (.errx "shortener.repo.Create" .conflict
          (.errString "duplicate slug")))
        "https://example.com" "").2 = 3 ∧
    SpecModel.countCreate
      (SpecModel.create 3 (fun _ => .ok "abc1234")
        (fun _ _ => .error (.errx "shortener.repo.Create" .conflict
          (.errString "duplicate slug")))
        "https://example.com" "").2 = 3 := by
  obtain ⟨-, hres, -, hgen, hcre⟩ :=
    SpecModel.create_retry_bound_unavailable 3 (fun _ => "abc1234")
      (fun _ => .ok "abc1234")
      (fun _ _ => .error (.errx "shortener.repo.Create" .conflict
        (.errString "duplicate slug")))
      "https://example.com"
      (by decide) (fun _ => rfl)
      (fun _ => ⟨.errx "shortener.repo.Create" .conflict (.errString "duplicate slug"),
        rfl, rfl⟩)
  exact ⟨hres, hgen, hcre⟩

namespace Shortener

/-- The kind (`errx.KindOf`) of a classified error is never `Unknown`. -/
theorem kindOf_classified {e : GoErr} (h : IsClassified e) :
    Errx.KindOf e ≠ .unknown := by
  obtain ⟨o, k, c, rfl, hk, -⟩ := h
  simpa [Errx.KindOf] using hk

/-- The boundary translator always emits a classified error. -/
theorem mapRepoError_classified (op : String) (hop : op ≠ "") (e : GoErr) :
    IsClassified (mapRepoError op e) := by
  unfold mapRepoError
  split_ifs with h1 h2
  · exact ⟨op, .notFound, e, rfl, by decide, hop⟩
  · exact ⟨op, .conflict, e, rfl, by decide, hop⟩
  · exact ⟨op, .unavailable, e, rfl, by decide, hop⟩

/-- A schema-valid row always converts to a domain link. -/
theorem toDomainLink_ok {row : DbRow} (h : ValidRow row) :
    ∃ l, toDomainLink row = .ok l := by
  obtain ⟨h1, h2⟩ := h
  rcases hc : row.createdAt with _ | c
  · exact absurd hc h1
  rcases hu : row.updatedAt with _ | u
  · exact absurd hu h2
  refine ⟨{ id := row.id, originalURL := row.originalUrl, slug := row.slug,
            accessCount := row.accessCount, createdAt := c, updatedAt := u,
            lastAccessedAt := timePtr row.lastAccessedAt }, ?_⟩
  unfold toDomainLink mustTime
  rw [hc, hu]

/-- The model of `repo.GetBySlug` only fails with classified errors when the store
obeys the schema. -/
theorem repoGetBySlug_err_classified (qg : String → Except GoErr DbRow)
    (hv : ∀ s row, qg s = .ok row → ValidRow row) (s : String) :
    ∀ e, repoGetBySlug qg s = .error e → IsClassified e := by
  intro e he
  unfold repoGetBySlug at he
  split at he
  · obtain rfl := Except.error.inj he
    exact mapRepoError_classified _ (by decide) _
  · next row heq =>
    obtain ⟨l, hl⟩ := toDomainLink_ok (hv s row heq)
    simp [hl] at he

/-- The model of `repo.ResolveAndTrack` only fails with classified errors when the
store obeys the schema. -/
theorem repoResolveAndTrack_err_classified (qr : String → Except GoErr DbRow)
    (hv : ∀ s row, qr s = .ok row → ValidRow row) (s : String) :
    ∀ e, repoResolveAndTrack qr s = .error e → IsClassified e := by
  intro e he
  unfold repoResolveAndTrack at he
  split at he
  · obtain rfl := Except.error.inj he
    exact mapRepoError_classified _ (by decide) _
  · next row heq =>
    obtain ⟨l, hl⟩ := toDomainLink_ok (hv s row heq)
    simp [hl] at he

/-- The model of `repo.Create` only fails with classified errors when the store obeys
the schema. -/
theorem repoCreate_err_classified (ids : Except GoErr Nat)
    (qc : CreateLinkParams → Except GoErr DbRow)
    (hv : ∀ p row, qc p = .ok row → ValidRow row) (link : Link) :
    ∀ e, repoCreate ids qc link = .error e → IsClassified e := by
  intro e he
  unfold repoCreate at he
  split at he
  · obtain rfl := Except.error.inj he
    exact ⟨_, .unavailable, _, rfl, by decide, by decide⟩
  · split at he
    · obtain rfl := Except.error.inj he
      exact mapRepoError_classified _ (by decide) _
    · next row heq =>
      obtain ⟨l, hl⟩ := toDomainLink_ok (hv _ row heq)
      simp [hl] at he

/-- The model of `repo.Delete` only fails with classified errors. -/
theorem repoDelete_err_classified (qd : String → Option GoErr) (s : String) :
    ∀ e, repoDelete qd s = some e → IsClassified e := by
  intro e he
  unfold repoDelete at he
  split at he
  · obtain rfl := Option.some.inj he
    exact mapRepoError_classified _ (by decide) _
  · cases he

/-- The model of `generateUniqueSlug` only fails with classified errors, given a
repository whose failures are classified. -/
theorem generateUniqueSlugGo_err_classified (rget : String → Except GoErr Link)
    (hrg : ∀ s e, rget s = .error e → IsClassified e)
    (gen : Nat → Except GoErr String) :
    ∀ fuel i e, (generateUniqueSlugGo rget gen fuel i).1 = .error e →
      IsClassified e := by
  intro fuel
  induction fuel with
  | zero =>
    intro i e he
    obtain rfl := Except.error.inj he
    exact ⟨_, .unavailable, _, rfl, by decide, by decide⟩
  | succ n ih =>
    intro i e he
    unfold generateUniqueSlugGo at he
    split at he
    · obtain rfl := Except.error.inj he
      exact ⟨_, .unavailable, _, rfl, by decide, by decide⟩
    · next s heqGen =>
      split at he
      · next e' heqGet =>
        split_ifs at he with hk
        have heq : e' = e := Except.error.inj he
        exact heq ▸ hrg s e' heqGet
      · exact ih (i + 1) e he

/-- The model of `service.Create` only fails with classified errors, given repository
collaborators whose failures are classified. -/
theorem serviceCreateGo_err_classified
    (rc : Link → Except GoErr Link) (rget : String → Except GoErr Link)
    (gen : Nat → Except GoErr String) (url custom : String)
    (hc : ∀ l e, rc l = .error e → IsClassified e)
    (hrg : ∀ s e, rget s = .error e → IsClassified e) :
    ∀ e, (serviceCreateGo rc rget gen url custom).1 = .error e →
      IsClassified e := by
  intro e he
  unfold serviceCreateGo at he
  split at he
  · obtain rfl := Except.error.inj he
    exact ⟨_, .invalid, _, rfl, by decide, by decide⟩
  · split at he
    · split at he
      · next e' tr heq =>
        obtain rfl := Except.error.inj he
        have hcl := generateUniqueSlugGo_err_classified rget hrg gen MaxRetries 0 e'
          (by rw [heq])
        exact ⟨_, _, _, rfl, kindOf_classified hcl, by decide⟩
      · next slug tr heq =>
        unfold serviceCreateFinish at he
        split at he
        · next e'' heq2 =>
          obtain rfl := Except.error.inj he
          exact ⟨_, _, _, rfl, kindOf_classified (hc _ _ heq2), by decide⟩
        · simp at he
    · split at he
      · obtain rfl := Except.error.inj he
        exact ⟨_, .invalid, _, rfl, by decide, by decide⟩
      · unfold serviceCreateFinish at he
        split at he
        · next e'' heq2 =>
          obtain rfl := Except.error.inj he
          exact ⟨_, _, _, rfl, kindOf_classified (hc _ _ heq2), by decide⟩
        · simp at he

/-- The model of `service.GetBySlug` only fails with classified errors. -/
theorem serviceGetBySlug_err_classified (rget : String → Except GoErr Link)
    (hrg : ∀ s e, rget s = .error e → IsClassified e) (slug : String) :
    ∀ e, serviceGetBySlug rget slug = .error e → IsClassified e := by
  intro e he
  unfold serviceGetBySlug at he
  split at he
  · obtain rfl := Except.error.inj he
    exact ⟨_, .invalid, _, rfl, by decide, by decide⟩
  · split at he
    · next e' heq =>
      obtain rfl := Except.error.inj he
      exact ⟨_, _, _, rfl, kindOf_classified (hrg _ _ heq), by decide⟩
    · simp at he

/-- The model of `service.Resolve` only fails with classified errors. -/
theorem serviceResolve_err_classified (rres : String → Except GoErr Link)
    (hrr : ∀ s e, rres s = .error e → IsClassified e) (slug : String) :
    ∀ e, serviceResolve rres slug = .error e → IsClassified e := by
  intro e he
  unfold serviceResolve at he
  split at he
  · obtain rfl := Except.error.inj he
    exact ⟨_, .invalid, _, rfl, by decide, by decide⟩
  · split at he
    · next e' heq =>
      obtain rfl := Except.error.inj he
      exact ⟨_, _, _, rfl, kindOf_classified (hrr _ _ heq), by decide⟩
    · simp at he

/-- The model of `service.Delete` only fails with classified errors. -/
theorem serviceDelete_err_classified (rdel : String → Option GoErr)
    (hrd : ∀ s e, rdel s = some e → IsClassified e) (slug : String) :
    ∀ e, serviceDelete rdel slug = some e → IsClassified e := by
  intro e he
  unfold serviceDelete at he
  split at he
  · obtain rfl := Option.some.inj he
    exact ⟨_, .invalid, _, rfl, by decide, by decide⟩
  · split at he
    · next e' heq =>
      obtain rfl := Option.some.inj he
      exact ⟨_, _, _, rfl, kindOf_classified (hrd _ _ heq), by decide⟩
    · cases he

end Shortener

namespace Shortener

/-- C10: `errx.E` with a nil cause returns nil; and every non-nil error
any service operation returns — over the real repository boundary
(`mapRepoError` classification) and a store obeying the links-table
schema — is an `errx.Error` carrying a non-empty operation label and a
kind other than `Unknown`. -/
theorem service_errors_classified :
    (∀ (op : String) (k : Errx.Kind), Errx.E op k none = none) ∧
    (∀ (qc : CreateLinkParams → Except GoErr DbRow)
       (qg qr : String → Except GoErr DbRow) (qd : String → Option GoErr)
       (ids : Except GoErr Nat) (gen : Nat → Except GoErr String)
       (url custom s1 s2 s3 : String),
      (∀ p row, qc p = .ok row → ValidRow row) →
      (∀ s row, qg s = .ok row → ValidRow row) →
      (∀ s row, qr s = .ok row → ValidRow row) →
      (∀ e, (serviceCreateGo (repoCreate ids qc) (repoGetBySlug qg) gen
          url custom).1 = .error e → IsClassified e) ∧
      (∀ e, serviceGetBySlug (repoGetBySlug qg) s1 = .error e → IsClassified e) ∧
      (∀ e, serviceResolve (repoResolveAndTrack qr) s2 = .error e → IsClassified e) ∧
      (∀ e, serviceDelete (repoDelete qd) s3 = some e → IsClassified e)) := by
  refine ⟨fun op k => rfl, ?_⟩
  intro qc qg qr qd ids gen url custom s1 s2 s3 hvc hvg hvr
  refine ⟨?_, ?_, ?_, ?_⟩
  · exact serviceCreateGo_err_classified _ _ gen url custom
      (repoCreate_err_classified ids qc hvc)
      (repoGetBySlug_err_classified qg hvg)
  · exact serviceGetBySlug_err_classified _
      (repoGetBySlug_err_classified qg hvg) s1
  · exact serviceResolve_err_classified _
      (repoResolveAndTrack_err_classified qr hvr) s2
  · exact serviceDelete_err_classified _
      (fun s e => repoDelete_err_classified qd s e) s3

end Shortener

/-- Witness for C10: `errx.E` of a nil cause is nil, and the concrete
error a `Delete` against a failing store returns carries a kind other
than `Unknown`. -/
theorem service_errors_classified_witness :
    Errx.E "shortener.service.Create" .invalid none = none ∧
    Errx.KindOf (GoErr.errx "shortener.service.Delete" .unavailable
        (.errx "shortener.repo.Delete" .unavailable (.errString "boom")))
      ≠ .unknown := by
  constructor
  · exact Shortener.service_errors_classified.1 "shortener.service.Create" .invalid
  · have h := (Shortener.service_errors_classified.2
      (fun _ => .error (.errString "boom")) (fun _ => .error (.errString "boom"))
      (fun _ => .error (.errString "boom")) (fun _ => some (.errString "boom"))
      (.ok 1) (fun _ => .ok "abc1234") "https://example.com" "" "abc" "abc" "abc"
      (fun p row hrow => by cases hrow) (fun s row hrow => by cases hrow)
      (fun s row hrow => by cases hrow)).2.2.2
        (GoErr.errx "shortener.service.Delete" .unavailable
          (.errx "shortener.repo.Delete" .unavailable (.errString "boom"))) rfl
    exact Shortener.kindOf_classified h
